import Mathlib

/-!
Verification development for the ESP32 RS485 sensor-monitoring system
(`iniciar_sistema.py` and `Interfaz/esp32_monitor.py`).

The Python code is shallowly embedded: Python dicts produced by
`json.loads` become the inductive `Json`; `collections.deque(maxlen=n)`
becomes a list with FIFO eviction (`dequeApp`); the buffer-splitting
loop of the serial workers becomes `splitNL`/`feedChunks`; chunk-wise
UTF-8 decoding with errors ignored becomes `utf8Ignore`; and the GUI
classes have their data-processing methods become pure state transitions
on explicit state records.  GUI-only effects (labels, pens, prints) are
not part of the state.
-/

/-- Values produced by decoding one JSON telemetry line (the result of
Python `json.loads`). Numbers are modelled as rationals. -/
inductive Json where
  | null
  | bool (b : Bool)
  | num (q : ℚ)
  | str (s : String)
  | arr (elems : List Json)
  | obj (fields : List (String × Json))

/-- Lookup of a key in a decoded JSON object, as Python dict indexing:
returns the value stored under the first (unique) occurrence of the key. -/
def jdictGet (fields : List (String × Json)) (k : String) : Option Json :=
  (fields.find? (fun p => p.1 = k)).map (fun p => p.2)

/-- Python `d.get(k, default)` on a dict. -/
def pyGet (fields : List (String × Json)) (k : String) (default : Json) : Json :=
  (jdictGet fields k).getD default

/-- Python `k in d` on a dict. -/
def jhas (fields : List (String × Json)) (k : String) : Bool :=
  (jdictGet fields k).isSome

/-- Python `v == s` where `v` came out of a decoded JSON dict and `s` is a
string: true exactly when `v` is that string. -/
def jsonIsStr (v : Json) (s : String) : Bool :=
  match v with
  | .str t => t = s
  | _ => false

/-- Python `v.get(k, 0)` where `v` is an arbitrary decoded JSON value:
succeeds (with default `0`) when `v` is a dict, and raises
`AttributeError` (modelled as `none`, caught by the `except`
blocks of the callers) otherwise. -/
def pyGetOr0 (v : Json) (k : String) : Option Json :=
  match v with
  | .obj fields => some (pyGet fields k (.num 0))
  | _ => none

/-- One `append` on a Python `collections.deque(maxlen := cap)`: arrival
order is kept and the oldest element is evicted once `cap` is exceeded. -/
def dequeApp {α : Type} (cap : ℕ) (xs : List α) (x : α) : List α :=
  if xs.length < cap then xs ++ [x] else xs.drop 1 ++ [x]

/-- Python `str(state).lower()` for a bool `state`. -/
def pyBoolStr : Bool → String
  | true => "true"
  | false => "false"

/-- Python `s.lower()` for the ASCII identifiers used here, rendered on
the underlying character list. -/
def pyLower (s : String) : String :=
  String.mk (s.data.map Char.toLower)

/-- The LED command line built by `ESP32Monitor.send_led_command`
(`esp32_monitor.py` line 764): the LED name, a colon, the lower-cased
boolean, and a newline. -/
def monitor_led_command (led_name : String) (state : Bool) : String :=
  led_name ++ ":" ++ pyBoolStr state ++ "\n"

/-- The LED command line built by `ESP32Interface.send_led_command`
(`iniciar_sistema.py` line 711): the lower-cased target node, an
underscore, the LED name, a colon, the lower-cased boolean, and a
newline.  The string is
computed before the mode test, and every branch of the method (local
direct, distributed direct, distributed relayed) writes this same
string, so the payload does not depend on `operation_mode`. -/
def interface_led_command (target led_name : String) (state : Bool) : String :=
  pyLower target ++ "_" ++ led_name ++ ":" ++ pyBoolStr state ++ "\n"

/-- Sensor-key catalog of `ESP32Interface` (`iniciar_sistema.py` line 133). -/
def interfaceSensors : List String :=
  ["pot", "ldr", "enc", "ax", "ay", "az", "gx", "gy", "gz", "temp"]

/-- Sensor-key catalog of `ESP32Monitor` (`esp32_monitor.py` line 139). -/
def monitorSensorKeys : List String :=
  ["pot", "ldr", "enc", "ax"]

/-- The mutable fields of `ESP32Interface` (`iniciar_sistema.py`) that its
data-processing methods read or write. -/
structure InterfaceState where
  master_esp : String
  operation_mode : String
  local_esp : Option String
  plot_data_local : List Json
  plot_data_remote : List Json
  plot_time : List ℚ
  current_sensor : ℕ

/-- `ESP32Interface.update_plot_data` (lines 808-824): append the
`local`/`remote` values of the selected sensor (default 0 when the key or the object is
missing) and the arrival time to the three 300-sample deques.  An
exception (bad sensor index, non-dict `local`/`remote` value) is caught
by the `except` block of the method before any append happens. -/
def update_plot_data (st : InterfaceState) (data : List (String × Json)) (now : ℚ) :
    InterfaceState :=
  match interfaceSensors.get? st.current_sensor with
  | none => st
  | some sensor_key =>
    match pyGetOr0 (pyGet data "local" (.obj [])) sensor_key with
    | none => st
    | some local_val =>
      match pyGetOr0 (pyGet data "remote" (.obj [])) sensor_key with
      | none => st
      | some remote_val =>
        { st with
          plot_data_local := dequeApp 300 st.plot_data_local local_val
          plot_data_remote := dequeApp 300 st.plot_data_remote remote_val
          plot_time := dequeApp 300 st.plot_time now }

/-- `ESP32Interface.update_plot_data_from_slave` (lines 826-853): the
`remote` object of a slave frame carries the master values, so the pair is
appended swapped.  The two source branches on `master_esp` have
identical bodies (only the comments differ). -/
def update_plot_data_from_slave (st : InterfaceState) (data : List (String × Json))
    (now : ℚ) : InterfaceState :=
  match interfaceSensors.get? st.current_sensor with
  | none => st
  | some sensor_key =>
    if st.master_esp = "ESP1" then
      match pyGetOr0 (pyGet data "remote" (.obj [])) sensor_key with
      | none => st
      | some master_local_val =>
        match pyGetOr0 (pyGet data "local" (.obj [])) sensor_key with
        | none => st
        | some master_remote_val =>
          { st with
            plot_data_local := dequeApp 300 st.plot_data_local master_local_val
            plot_data_remote := dequeApp 300 st.plot_data_remote master_remote_val
            plot_time := dequeApp 300 st.plot_time now }
    else
      match pyGetOr0 (pyGet data "remote" (.obj [])) sensor_key with
      | none => st
      | some master_local_val =>
        match pyGetOr0 (pyGet data "local" (.obj [])) sensor_key with
        | none => st
        | some master_remote_val =>
          { st with
            plot_data_local := dequeApp 300 st.plot_data_local master_local_val
            plot_data_remote := dequeApp 300 st.plot_data_remote master_remote_val
            plot_time := dequeApp 300 st.plot_time now }

/-- The local-node auto-detection at the top of
`ESP32Interface.on_data_received` (lines 777-780): in distributed mode,
while `local_esp` is unset, a recognized `device` value pins it. -/
def bind_local_esp (st : InterfaceState) (device : Json) : InterfaceState :=
  if st.operation_mode = "DISTRIBUIDO" ∧ st.local_esp = none then
    if jsonIsStr device "ESP1" then { st with local_esp := some "ESP1" }
    else if jsonIsStr device "ESP2" then { st with local_esp := some "ESP2" }
    else st
  else st

/-- `ESP32Interface.on_data_received` (lines 771-806).  The `_port`
argument is received from the signal but never used for routing. -/
def on_data_received (st : InterfaceState) (_port : String)
    (data : List (String × Json)) (now : ℚ) : InterfaceState :=
  let device := pyGet data "device" (.str "Unknown")
  let st1 := bind_local_esp st device
  if st1.operation_mode = "DISTRIBUIDO" then
    if jhas data "local" ∧ jhas data "remote" then
      if jsonIsStr device st1.master_esp then update_plot_data st1 data now
      else update_plot_data_from_slave st1 data now
    else if jsonIsStr device st1.master_esp then update_plot_data st1 data now
    else st1
  else if jsonIsStr device st1.master_esp then update_plot_data st1 data now
  else st1

/-- The relative-time array computed by `ESP32Interface.update_display`
(line 860): `[t - plot_time[0] for t in plot_time]`.  The method only
computes it when the deque holds at least two samples, so the head
access cannot fail; `headD 0` is the total rendering of `plot_time[0]`. -/
def timeRel (ts : List ℚ) : List ℚ :=
  ts.map (fun t => t - ts.headD 0)

/-- The mutable fields of `ESP32Monitor` (`esp32_monitor.py`) that its
data-processing methods read or write. -/
structure MonitorState where
  master_esp : String
  current_sensor : ℕ
  esp1_data : List (List (String × Json))
  esp2_data : List (List (String × Json))
  time_data : List ℚ
  master_local_data : List Json
  master_remote_data : List Json
  plot_time_data : List ℚ

/-- Python `l[-n:]`: the last `n` elements of a list. -/
def lastN {α : Type} (n : ℕ) (l : List α) : List α :=
  l.drop (l.length - n)

/-- `ESP32Monitor.update_real_time_plot` (lines 639-683): append the
selected sensor values to the three 500-capacity deques, then trim all
three to the last 300 points once more than 300 are held.  Curve/label
updates are GUI-only; an exception before the appends is caught by the
`except` block of the method. -/
def update_real_time_plot (st : MonitorState) (data : List (String × Json)) (now : ℚ) :
    MonitorState :=
  match monitorSensorKeys.get? st.current_sensor with
  | none => st
  | some sensor_key =>
    match pyGetOr0 (pyGet data "local" (.obj [])) sensor_key with
    | none => st
    | some local_value =>
      match pyGetOr0 (pyGet data "remote" (.obj [])) sensor_key with
      | none => st
      | some remote_value =>
        let st1 := { st with
          master_local_data := dequeApp 500 st.master_local_data local_value
          master_remote_data := dequeApp 500 st.master_remote_data remote_value
          plot_time_data := dequeApp 500 st.plot_time_data now }
        if st1.plot_time_data.length > 300 then
          { st1 with
            master_local_data := lastN 300 st1.master_local_data
            master_remote_data := lastN 300 st1.master_remote_data
            plot_time_data := lastN 300 st1.plot_time_data }
        else st1

/-- `ESP32Monitor.on_data_received` (lines 612-637): stamp the frame,
retain it in the per-node 1000-capacity history for a recognized
`device`, feed the plot only when `device` equals the master, and
throttle the shared `time_data` timestamps. -/
def monitor_on_data_received (st : MonitorState) (data : List (String × Json))
    (now : ℚ) : MonitorState :=
  let device := pyGet data "device" (.str "Unknown")
  let data2 := if jhas data "timestamp" then data else data ++ [("timestamp", Json.num now)]
  let st1 :=
    if jsonIsStr device "ESP1" then
      { st with esp1_data := dequeApp 1000 st.esp1_data data2 }
    else if jsonIsStr device "ESP2" then
      { st with esp2_data := dequeApp 1000 st.esp2_data data2 }
    else st
  let st2 :=
    if jsonIsStr device st1.master_esp then update_real_time_plot st1 data2 now else st1
  if st2.time_data = [] ∨ now - (st2.time_data.getLast?.getD 0) > 1 / 100 then
    { st2 with time_data := dequeApp 1000 st2.time_data now }
  else st2

/-- One application of `buffer.split(chr 10, 1)` folded over the tail
result: helper for `splitNL`. -/
def splitNLcons (c : Char) (p : List (List Char) × List Char) :
    List (List Char) × List Char :=
  if c = '\n' then ([] :: p.1, p.2)
  else
    match p.1 with
    | [] => ([], c :: p.2)
    | l :: ls => ((c :: l) :: ls, p.2)

/-- The newline-extraction loop of `SerialWorker.run` (lines 65-69 of
`iniciar_sistema.py`, lines 67-71 of `esp32_monitor.py`): repeatedly
split the buffer at the first newline.  Returns the complete lines in
arrival order together with the residual buffer (the text after the
last newline). -/
def splitNL : List Char → List (List Char) × List Char
  | [] => ([], [])
  | c :: rest => splitNLcons c (splitNL rest)

/-- Whitespace recognized by Python `str.strip()`. -/
def isPyWs (c : Char) : Bool :=
  c = ' ' ∨ c = '\t' ∨ c = '\n' ∨ c = '\r' ∨ c = '\x0b' ∨ c = '\x0c'

/-- Python `line.strip()`. -/
def pyStrip (l : List Char) : List Char :=
  ((l.dropWhile isPyWs).reverse.dropWhile isPyWs).reverse

/-- JSON whitespace accepted between tokens by `json.loads`. -/
def isJsonWs (c : Char) : Bool :=
  c = ' ' ∨ c = '\t' ∨ c = '\n' ∨ c = '\r'

/-- Skip JSON inter-token whitespace. -/
def skipWs (l : List Char) : List Char :=
  l.dropWhile isJsonWs

/-- Decimal digit test. -/
def isDigitC (c : Char) : Bool :=
  '0' ≤ c ∧ c ≤ '9'

/-- Value of a digit string. -/
def digitsToNat (ds : List Char) : ℕ :=
  ds.foldl (fun acc d => acc * 10 + (d.toNat - 48)) 0

/-- Scan a JSON string body after the opening quote, up to the closing
quote.  Escape sequences are outside the modelled telemetry subset and
make the scan fail. -/
def takeStr : List Char → Option (List Char × List Char)
  | [] => none
  | c :: rest =>
    if c = '"' then some ([], rest)
    else if c = '\\' then none
    else (takeStr rest).map (fun p => (c :: p.1, p.2))

/-- Scan a JSON number (optional minus, integer part, optional fraction;
exponents are outside the modelled telemetry subset). -/
def takeNum (l : List Char) : Option (ℚ × List Char) :=
  let (neg, l1) := match l with | '-' :: r => (true, r) | _ => (false, l)
  let ds := l1.takeWhile isDigitC
  let l2 := l1.drop ds.length
  if ds = [] then none
  else
    match l2 with
    | '.' :: r =>
      let fs := r.takeWhile isDigitC
      if fs = [] then none
      else
        let v : ℚ := (digitsToNat ds : ℚ) + (digitsToNat fs : ℚ) / ((10 : ℚ) ^ fs.length)
        some (if neg then -v else v, r.drop fs.length)
    | _ =>
      let v : ℚ := (digitsToNat ds : ℚ)
      some (if neg then -v else v, l2)

/-- Store a parsed object member as Python dict insertion does: a
duplicate key overwrites in place, a fresh key is appended. -/
def objInsert (fields : List (String × Json)) (k : String) (v : Json) :
    List (String × Json) :=
  if (fields.find? (fun p => p.1 = k)).isSome then
    fields.map (fun p => if p.1 = k then (k, v) else p)
  else fields ++ [(k, v)]

/-- Parsing position of the recursive-descent JSON reader: a value, the
members of an object, or the items of an array. -/
inductive PState where
  | val
  | members (acc : List (String × Json))
  | items (acc : List Json)

/-- Recursive-descent reader behind `jsonLoads`, structured like the
grammar `json.loads` accepts on the telemetry subset (objects, arrays,
strings without escapes, numbers without exponents, `true`, `false`,
`null`).  The fuel argument strictly decreases on every recursive call;
`jsonLoads` supplies enough for any input it is given. -/
def parseCore : ℕ → PState → List Char → Option (Json × List Char)
  | 0, _, _ => none
  | fuel + 1, .val, l =>
    match skipWs l with
    | [] => none
    | '"' :: rest => (takeStr rest).map (fun p => (Json.str (String.mk p.1), p.2))
    | '{' :: rest =>
      match skipWs rest with
      | '}' :: rest2 => some (Json.obj [], rest2)
      | _ => parseCore fuel (.members []) rest
    | '[' :: rest =>
      match skipWs rest with
      | ']' :: rest2 => some (Json.arr [], rest2)
      | _ => parseCore fuel (.items []) rest
    | 't' :: 'r' :: 'u' :: 'e' :: rest => some (Json.bool true, rest)
    | 'f' :: 'a' :: 'l' :: 's' :: 'e' :: rest => some (Json.bool false, rest)
    | 'n' :: 'u' :: 'l' :: 'l' :: rest => some (Json.null, rest)
    | l2 => (takeNum l2).map (fun p => (Json.num p.1, p.2))
  | fuel + 1, .members acc, l =>
    match skipWs l with
    | '"' :: rest =>
      match takeStr rest with
      | none => none
      | some (key, rest2) =>
        match skipWs rest2 with
        | ':' :: rest3 =>
          match parseCore fuel .val rest3 with
          | none => none
          | some (v, rest4) =>
            match skipWs rest4 with
            | ',' :: rest5 => parseCore fuel (.members (objInsert acc (String.mk key) v)) rest5
            | '}' :: rest5 => some (Json.obj (objInsert acc (String.mk key) v), rest5)
            | _ => none
        | _ => none
    | _ => none
  | fuel + 1, .items acc, l =>
    match parseCore fuel .val l with
    | none => none
    | some (v, rest) =>
      match skipWs rest with
      | ',' :: rest2 => parseCore fuel (.items (acc ++ [v])) rest2
      | ']' :: rest2 => some (Json.arr (acc ++ [v]), rest2)
      | _ => none

/-- Python `json.loads` on one candidate line (telemetry subset): the
whole line, up to surrounding whitespace, must be consumed by one JSON
value; otherwise `json.JSONDecodeError` is raised, modelled as `none`. -/
def jsonLoads (l : List Char) : Option Json :=
  match parseCore (2 * l.length + 2) .val l with
  | some (v, rest) => if skipWs rest = [] then some v else none
  | none => none

/-- `SerialWorker.process_line` (lines 85-96 of `iniciar_sistema.py`,
lines 87-98 of `esp32_monitor.py`): the emitted frame, if any, for one
stripped nonempty line.  A line is parsed only when it starts with an
opening brace and ends with a closing brace; a `JSONDecodeError` is
swallowed (`none`).  On parse success the frame is emitted
unconditionally; the `device` test in the source only refreshes the
worker debug label `esp_name`, which no emission depends on, so it is
not part of the state here. -/
def process_line (line : List Char) : Option Json :=
  if line.head? = some '{' ∧ line.getLast? = some '}' then jsonLoads line
  else none

/-- Frames emitted for a list of extracted raw lines: each line is
stripped, empty lines are skipped (`if line:`), the rest go through
`process_line`. -/
def linesToFrames (ls : List (List Char)) : List Json :=
  ls.filterMap (fun l =>
    let s := pyStrip l
    if s = [] then none else process_line s)

/-- The reader loop of `SerialWorker.run` over successive read results:
each chunk is appended to the carried buffer and all complete lines are
extracted before the next read. -/
def feedChunks : List Char → List (List Char) → List (List Char) × List Char
  | buf, [] => ([], buf)
  | buf, chunk :: rest =>
    let p := splitNL (buf ++ chunk)
    let q := feedChunks p.2 rest
    (p.1 ++ q.1, q.2)

/-- All frames `SerialWorker.run` emits for a sequence of decoded read
chunks, starting from an empty buffer. -/
def framesOfChunks (chunks : List (List Char)) : List Json :=
  linesToFrames (feedChunks [] chunks).1

/-- UTF-8 continuation-byte test. -/
def isCont (b : ℕ) : Bool :=
  0x80 ≤ b ∧ b ≤ 0xBF

/-- Handling of one byte in lead position by Python
`bytes.decode(utf-8, errors=ignore)`: an ASCII byte is emitted, a valid
lead byte opens a pending multi-byte sequence (expected continuation
count and accumulated bits), anything else is skipped without error. -/
def leadStep (b : ℕ) : List Char × Option (ℕ × ℕ) :=
  if b < 0x80 then ([Char.ofNat b], none)
  else if 0xC2 ≤ b ∧ b ≤ 0xDF then ([], some (1, b - 0xC0))
  else if 0xE0 ≤ b ∧ b ≤ 0xEF then ([], some (2, b - 0xE0))
  else if 0xF0 ≤ b ∧ b ≤ 0xF4 then ([], some (3, b - 0xF0))
  else ([], none)

/-- Incremental lenient UTF-8 decoding: a pending sequence absorbs
continuation bytes and emits its character when complete; a
non-continuation byte discards the pending bytes and is reprocessed as
a fresh lead; a pending sequence left incomplete at the end of the
chunk is dropped, as Python does with errors ignored. -/
def utf8Go : Option (ℕ × ℕ) → List ℕ → List Char
  | _, [] => []
  | none, b :: rest =>
    (leadStep b).1 ++ utf8Go (leadStep b).2 rest
  | some (need, acc), b :: rest =>
    if isCont b then
      if need = 1 then Char.ofNat (acc * 0x40 + (b - 0x80)) :: utf8Go none rest
      else utf8Go (some (need - 1, acc * 0x40 + (b - 0x80))) rest
    else (leadStep b).1 ++ utf8Go (leadStep b).2 rest

/-- Python `bytes.decode(utf-8, errors=ignore)` as applied by
`SerialWorker.run` to each read chunk separately: malformed or
incomplete sequences are skipped without error.  Modelled on the UTF-8
framing bytes; the strict overlong/surrogate rejection inside 3- and
4-byte sequences is not distinguished, which no theorem below depends
on. -/
def utf8Ignore (l : List ℕ) : List Char :=
  utf8Go none l

/-- All frames `SerialWorker.run` emits for a sequence of raw byte
chunks as returned by `serial.read`: each chunk is decoded with errors
ignored, appended to the text buffer, and split into lines. -/
def framesOfByteChunks (chunks : List (List ℕ)) : List Json :=
  framesOfChunks (chunks.map utf8Ignore)

/-- Byte lists that are concatenations of complete UTF-8 character
encodings, so that a chunk boundary after them falls on a character
boundary. -/
inductive Utf8Seq : List ℕ → Prop where
  | nil : Utf8Seq []
  | one {b : ℕ} {rest : List ℕ} : b < 0x80 → Utf8Seq rest → Utf8Seq (b :: rest)
  | two {b1 b2 : ℕ} {rest : List ℕ} : 0xC2 ≤ b1 → b1 ≤ 0xDF → isCont b2 = true →
      Utf8Seq rest → Utf8Seq (b1 :: b2 :: rest)
  | three {b1 b2 b3 : ℕ} {rest : List ℕ} : 0xE0 ≤ b1 → b1 ≤ 0xEF →
      isCont b2 = true → isCont b3 = true → Utf8Seq rest →
      Utf8Seq (b1 :: b2 :: b3 :: rest)
  | four {b1 b2 b3 b4 : ℕ} {rest : List ℕ} : 0xF0 ≤ b1 → b1 ≤ 0xF4 →
      isCont b2 = true → isCont b3 = true → isCont b4 = true → Utf8Seq rest →
      Utf8Seq (b1 :: b2 :: b3 :: b4 :: rest)

/-! ### Supporting lemmas: bounded deques -/

/-- Folding appends over a bounded deque keeps the last `cap` elements of
the whole arrival sequence, in arrival order. -/
theorem foldl_dequeApp {α : Type} (cap : ℕ) (hcap : 0 < cap) :
    ∀ (xs init : List α), init.length ≤ cap →
      xs.foldl (dequeApp cap) init =
        (init ++ xs).drop (init.length + xs.length - cap) := by
  intro xs
  induction xs with
  | nil =>
    intro init h
    have h0 : init.length - cap = 0 := by omega
    simp [h0]
  | cons x xs ih =>
    intro init h
    rw [List.foldl_cons]
    by_cases hlt : init.length < cap
    · have hA : dequeApp cap init x = init ++ [x] := by simp [dequeApp, hlt]
      rw [hA, ih (init ++ [x]) (by simp; omega)]
      have e1 : (init ++ [x]) ++ xs = init ++ x :: xs := by simp
      have e2 : (init ++ [x]).length + xs.length - cap =
          init.length + (x :: xs).length - cap := by simp; omega
      rw [e1, e2]
    · have hcapEq : init.length = cap := by omega
      obtain ⟨i0, init', rfl⟩ : ∃ i0 init', init = i0 :: init' := by
        cases init with
        | nil => simp at hcapEq; omega
        | cons a l => exact ⟨a, l, rfl⟩
      have hA : dequeApp cap (i0 :: init') x = init' ++ [x] := by
        unfold dequeApp
        rw [if_neg hlt]
        rfl
      have hlen : init'.length + 1 = cap := by simpa using hcapEq
      rw [hA, ih (init' ++ [x]) (by simp; omega)]
      have e1 : (init' ++ [x]) ++ xs = init' ++ x :: xs := by simp
      have e2 : (init' ++ [x]).length + xs.length - cap = xs.length := by simp; omega
      have e3 : (i0 :: init').length + (x :: xs).length - cap = xs.length + 1 := by
        simp; omega
      rw [e1, e2, e3, List.cons_append, List.drop_succ_cons]

/-- Claim C6: appending 301 samples to the initially empty 300-capacity
window (the three `deque(maxlen=300)` buffers of `ESP32Interface`)
retains exactly the last 300 samples in arrival order, evicting the
first-appended sample, and the relative-time array of `update_display`
satisfies `relativeTimes[i] = t[i] - t[0]`, in particular
`relativeTimes[0] = 0`. -/
theorem window_capacity_fifo (ts : List ℚ) (ls rs : List Json)
    (ht : ts.length = 301) (hl : ls.length = 301) (hr : rs.length = 301) :
    ts.foldl (dequeApp 300) [] = ts.drop 1 ∧
    ls.foldl (dequeApp 300) [] = ls.drop 1 ∧
    rs.foldl (dequeApp 300) [] = rs.drop 1 ∧
    (ts.foldl (dequeApp 300) []).length = 300 ∧
    (∀ i : ℕ, (timeRel (ts.foldl (dequeApp 300) [])).get? i =
      ((ts.foldl (dequeApp 300) []).get? i).map
        (fun t => t - (ts.foldl (dequeApp 300) []).headD 0)) ∧
    (timeRel (ts.foldl (dequeApp 300) [])).get? 0 = some 0 := by
  have key : ∀ {α : Type} (xs : List α), xs.length = 301 →
      xs.foldl (dequeApp 300) [] = xs.drop 1 := by
    intro α xs hx
    rw [foldl_dequeApp 300 (by omega) xs [] (by simp)]
    simp [hx]
  have hts := key ts ht
  refine ⟨hts, key ls hl, key rs hr, ?_, ?_, ?_⟩
  · rw [hts]; simp [ht]
  · intro i
    simp [timeRel]
  · rw [hts]
    have : (ts.drop 1).length = 300 := by simp [ht]
    match e : ts.drop 1 with
    | [] => rw [e] at this; simp at this
    | a :: l => simp [timeRel, e]

/-- Witness for C6 at a concrete arrival sequence of 301 samples. -/
theorem window_capacity_fifo_witness :
    (List.replicate 301 (0 : ℚ)).length = 301 ∧
    ((List.replicate 301 (0 : ℚ)).foldl (dequeApp 300) [] =
        (List.replicate 301 (0 : ℚ)).drop 1 ∧
      (List.replicate 301 Json.null).foldl (dequeApp 300) [] =
        (List.replicate 301 Json.null).drop 1 ∧
      (List.replicate 301 Json.null).foldl (dequeApp 300) [] =
        (List.replicate 301 Json.null).drop 1 ∧
      ((List.replicate 301 (0 : ℚ)).foldl (dequeApp 300) []).length = 300 ∧
      (∀ i : ℕ,
        (timeRel ((List.replicate 301 (0 : ℚ)).foldl (dequeApp 300) [])).get? i =
          (((List.replicate 301 (0 : ℚ)).foldl (dequeApp 300) []).get? i).map
            (fun t => t - ((List.replicate 301 (0 : ℚ)).foldl (dequeApp 300) []).headD 0)) ∧
      (timeRel ((List.replicate 301 (0 : ℚ)).foldl (dequeApp 300) [])).get? 0 = some 0) :=
  ⟨by rw [List.length_replicate], window_capacity_fifo _ _ _
    (by rw [List.length_replicate]) (by rw [List.length_replicate])
    (by rw [List.length_replicate])⟩

/-! ### Supporting lemmas: ESP32Interface routing -/

/-- The local-node auto-detection changes nothing but `local_esp`. -/
theorem bind_local_esp_fields (st : InterfaceState) (d : Json) :
    (bind_local_esp st d).master_esp = st.master_esp ∧
    (bind_local_esp st d).operation_mode = st.operation_mode ∧
    (bind_local_esp st d).current_sensor = st.current_sensor ∧
    (bind_local_esp st d).plot_data_local = st.plot_data_local ∧
    (bind_local_esp st d).plot_data_remote = st.plot_data_remote ∧
    (bind_local_esp st d).plot_time = st.plot_time := by
  unfold bind_local_esp
  split
  · split
    · simp
    · split <;> simp
  · simp

/-- `update_plot_data` never touches the local-node binding. -/
theorem update_plot_data_local_esp (st : InterfaceState)
    (data : List (String × Json)) (now : ℚ) :
    (update_plot_data st data now).local_esp = st.local_esp := by
  unfold update_plot_data
  repeat' split
  all_goals rfl

/-- `update_plot_data_from_slave` never touches the local-node binding. -/
theorem update_plot_data_from_slave_local_esp (st : InterfaceState)
    (data : List (String × Json)) (now : ℚ) :
    (update_plot_data_from_slave st data now).local_esp = st.local_esp := by
  unfold update_plot_data_from_slave
  repeat' split
  all_goals rfl

/-- When the `device` of the frame equals the current master, every routing
branch of `on_data_received` leads to `update_plot_data`. -/
theorem on_data_received_master (st : InterfaceState) (port : String)
    (data : List (String × Json)) (now : ℚ)
    (hdev : jsonIsStr (pyGet data "device" (.str "Unknown")) st.master_esp = true) :
    on_data_received st port data now =
      update_plot_data (bind_local_esp st (pyGet data "device" (.str "Unknown")))
        data now := by
  unfold on_data_received
  dsimp only
  rw [(bind_local_esp_fields st (pyGet data "device" (.str "Unknown"))).1]
  simp [hdev]

/-- In distributed mode, a both-objects frame whose `device` differs from
the master is routed to `update_plot_data_from_slave`. -/
theorem on_data_received_slave (st : InterfaceState) (port : String)
    (data : List (String × Json)) (now : ℚ)
    (hmode : st.operation_mode = "DISTRIBUIDO")
    (hdev : jsonIsStr (pyGet data "device" (.str "Unknown")) st.master_esp = false)
    (hboth : jhas data "local" = true ∧ jhas data "remote" = true) :
    on_data_received st port data now =
      update_plot_data_from_slave
        (bind_local_esp st (pyGet data "device" (.str "Unknown"))) data now := by
  unfold on_data_received
  dsimp only
  have hb := bind_local_esp_fields st (pyGet data "device" (.str "Unknown"))
  rw [hb.1, hb.2.1, hmode]
  simp [hdev, hboth.1, hboth.2]

/-- In distributed mode, a frame lacking `local` or `remote` with a
`device` different from the master falls through all routing branches. -/
theorem on_data_received_dropped (st : InterfaceState) (port : String)
    (data : List (String × Json)) (now : ℚ)
    (hmode : st.operation_mode = "DISTRIBUIDO")
    (hdev : jsonIsStr (pyGet data "device" (.str "Unknown")) st.master_esp = false)
    (hmiss : jhas data "local" = false ∨ jhas data "remote" = false) :
    on_data_received st port data now =
      bind_local_esp st (pyGet data "device" (.str "Unknown")) := by
  unfold on_data_received
  dsimp only
  have hb := bind_local_esp_fields st (pyGet data "device" (.str "Unknown"))
  rw [hb.1, hb.2.1, hmode]
  rcases hmiss with h | h <;> simp [hdev, h]

/-- The routing of `on_data_received` never touches the local-node
binding after the auto-detection step. -/
theorem on_data_received_local_esp (st : InterfaceState) (port : String)
    (data : List (String × Json)) (now : ℚ) :
    (on_data_received st port data now).local_esp =
      (bind_local_esp st (pyGet data "device" (.str "Unknown"))).local_esp := by
  unfold on_data_received
  dsimp only
  split
  · split
    · split
      · rw [update_plot_data_local_esp]
      · rw [update_plot_data_from_slave_local_esp]
    · split
      · rw [update_plot_data_local_esp]
      · rfl
  · split
    · rw [update_plot_data_local_esp]
    · rfl

/-- Claim C2: a frame whose `device` equals the current master publishes
the display pair without swapping: the `local` value of the selected sensor is
appended to the local display series and its `remote` value to the
remote display series, in every operating mode. -/
theorem master_frame_direct_display (st : InterfaceState) (port : String)
    (data : List (String × Json)) (now : ℚ) (L R : List (String × Json))
    (key : String) (lv rv : Json)
    (hmaster : st.master_esp = "ESP1" ∨ st.master_esp = "ESP2")
    (hdev : jdictGet data "device" = some (.str st.master_esp))
    (hL : jdictGet data "local" = some (.obj L))
    (hR : jdictGet data "remote" = some (.obj R))
    (hkey : interfaceSensors.get? st.current_sensor = some key)
    (hlv : jdictGet L key = some lv)
    (hrv : jdictGet R key = some rv) :
    (on_data_received st port data now).plot_data_local =
      dequeApp 300 st.plot_data_local lv ∧
    (on_data_received st port data now).plot_data_remote =
      dequeApp 300 st.plot_data_remote rv ∧
    (on_data_received st port data now).plot_time =
      dequeApp 300 st.plot_time now := by
  have hdev2 : jsonIsStr (pyGet data "device" (.str "Unknown")) st.master_esp = true := by
    simp [pyGet, hdev, jsonIsStr]
  rw [on_data_received_master st port data now hdev2]
  have hb := bind_local_esp_fields st (pyGet data "device" (.str "Unknown"))
  have e1 : pyGet data "local" (.obj []) = Json.obj L := by simp [pyGet, hL]
  have e2 : pyGet data "remote" (.obj []) = Json.obj R := by simp [pyGet, hR]
  have e3 : pyGetOr0 (Json.obj L) key = some lv := by simp [pyGetOr0, pyGet, hlv]
  have e4 : pyGetOr0 (Json.obj R) key = some rv := by simp [pyGetOr0, pyGet, hrv]
  unfold update_plot_data
  rw [hb.2.2.1, hkey]
  dsimp only
  rw [e1, e3]
  dsimp only
  rw [e2, e4]
  dsimp only
  rw [hb.2.2.2.1, hb.2.2.2.2.1, hb.2.2.2.2.2]
  exact ⟨rfl, rfl, rfl⟩

/-- Claim C1: in distributed mode, a recognized frame from the slave
node (its `device` differs from the current master) carrying both
objects publishes the display pair swapped: the `remote` value goes to
the local (master) display series and the `local` value to the remote
(slave) display series, for either choice of master and regardless of
the delivering link (`port` is arbitrary and unused). -/
theorem slave_frame_swaps_display (st : InterfaceState) (port : String)
    (data : List (String × Json)) (now : ℚ) (devName : String)
    (L R : List (String × Json)) (key : String) (lv rv : Json)
    (hmode : st.operation_mode = "DISTRIBUIDO")
    (hmaster : st.master_esp = "ESP1" ∨ st.master_esp = "ESP2")
    (hdev : jdictGet data "device" = some (.str devName))
    (hrec : devName = "ESP1" ∨ devName = "ESP2")
    (hne : devName ≠ st.master_esp)
    (hL : jdictGet data "local" = some (.obj L))
    (hR : jdictGet data "remote" = some (.obj R))
    (hkey : interfaceSensors.get? st.current_sensor = some key)
    (hlv : jdictGet L key = some lv)
    (hrv : jdictGet R key = some rv) :
    (on_data_received st port data now).plot_data_local =
      dequeApp 300 st.plot_data_local rv ∧
    (on_data_received st port data now).plot_data_remote =
      dequeApp 300 st.plot_data_remote lv ∧
    (on_data_received st port data now).plot_time =
      dequeApp 300 st.plot_time now := by
  have hdev2 : jsonIsStr (pyGet data "device" (.str "Unknown")) st.master_esp = false := by
    simp [pyGet, hdev, jsonIsStr, hne]
  have hboth : jhas data "local" = true ∧ jhas data "remote" = true := by
    constructor <;> simp [jhas, hL, hR]
  rw [on_data_received_slave st port data now hmode hdev2 hboth]
  have hb := bind_local_esp_fields st (pyGet data "device" (.str "Unknown"))
  have e1 : pyGet data "local" (.obj []) = Json.obj L := by simp [pyGet, hL]
  have e2 : pyGet data "remote" (.obj []) = Json.obj R := by simp [pyGet, hR]
  have e3 : pyGetOr0 (Json.obj L) key = some lv := by simp [pyGetOr0, pyGet, hlv]
  have e4 : pyGetOr0 (Json.obj R) key = some rv := by simp [pyGetOr0, pyGet, hrv]
  unfold update_plot_data_from_slave
  rw [hb.2.2.1, hkey]
  dsimp only
  rw [hb.1]
  rcases hmaster with hm | hm
  · rw [if_pos hm, e2, e4]
    dsimp only
    rw [e1, e3]
    dsimp only
    rw [hb.2.2.2.1, hb.2.2.2.2.1, hb.2.2.2.2.2]
    exact ⟨rfl, rfl, rfl⟩
  · rw [if_neg (by rw [hm]; decide), e2, e4]
    dsimp only
    rw [e1, e3]
    dsimp only
    rw [hb.2.2.2.1, hb.2.2.2.2.1, hb.2.2.2.2.2]
    exact ⟨rfl, rfl, rfl⟩

/-- Claim C8: a frame whose `device` equals the master and which carries
a `local` object but no `remote` key is still published: the local
display series receives the `local` value and the remote display series
receives 0 for that sample. -/
theorem missing_remote_defaults_zero (st : InterfaceState) (port : String)
    (data : List (String × Json)) (now : ℚ) (L : List (String × Json))
    (key : String) (lv : Json)
    (hmaster : st.master_esp = "ESP1" ∨ st.master_esp = "ESP2")
    (hdev : jdictGet data "device" = some (.str st.master_esp))
    (hnoR : jdictGet data "remote" = none)
    (hL : jdictGet data "local" = some (.obj L))
    (hkey : interfaceSensors.get? st.current_sensor = some key)
    (hlv : jdictGet L key = some lv) :
    (on_data_received st port data now).plot_data_local =
      dequeApp 300 st.plot_data_local lv ∧
    (on_data_received st port data now).plot_data_remote =
      dequeApp 300 st.plot_data_remote (Json.num 0) ∧
    (on_data_received st port data now).plot_time =
      dequeApp 300 st.plot_time now := by
  have hdev2 : jsonIsStr (pyGet data "device" (.str "Unknown")) st.master_esp = true := by
    simp [pyGet, hdev, jsonIsStr]
  rw [on_data_received_master st port data now hdev2]
  have hb := bind_local_esp_fields st (pyGet data "device" (.str "Unknown"))
  have e1 : pyGet data "local" (.obj []) = Json.obj L := by simp [pyGet, hL]
  have e2 : pyGet data "remote" (.obj []) = Json.obj [] := by simp [pyGet, hnoR]
  have e3 : pyGetOr0 (Json.obj L) key = some lv := by simp [pyGetOr0, pyGet, hlv]
  have e4 : pyGetOr0 (Json.obj []) key = some (Json.num 0) := by
    simp [pyGetOr0, pyGet, jdictGet]
  unfold update_plot_data
  rw [hb.2.2.1, hkey]
  dsimp only
  rw [e1, e3]
  dsimp only
  rw [e2, e4]
  dsimp only
  rw [hb.2.2.2.1, hb.2.2.2.2.1, hb.2.2.2.2.2]
  exact ⟨rfl, rfl, rfl⟩

/-- Claim C10: in distributed mode, a recognized frame from the slave
node that lacks the `local` object or the `remote` object is dropped
from display processing: none of the three plot series receives a
sample. -/
theorem slave_frame_missing_field_dropped (st : InterfaceState) (port : String)
    (data : List (String × Json)) (now : ℚ) (devName : String)
    (hmode : st.operation_mode = "DISTRIBUIDO")
    (hdev : jdictGet data "device" = some (.str devName))
    (hrec : devName = "ESP1" ∨ devName = "ESP2")
    (hne : devName ≠ st.master_esp)
    (hmiss : jdictGet data "local" = none ∨ jdictGet data "remote" = none) :
    (on_data_received st port data now).plot_data_local = st.plot_data_local ∧
    (on_data_received st port data now).plot_data_remote = st.plot_data_remote ∧
    (on_data_received st port data now).plot_time = st.plot_time := by
  have hdev2 : jsonIsStr (pyGet data "device" (.str "Unknown")) st.master_esp = false := by
    simp [pyGet, hdev, jsonIsStr, hne]
  have hmiss2 : jhas data "local" = false ∨ jhas data "remote" = false := by
    rcases hmiss with h | h
    · left; simp [jhas, h]
    · right; simp [jhas, h]
  rw [on_data_received_dropped st port data now hmode hdev2 hmiss2]
  have hb := bind_local_esp_fields st (pyGet data "device" (.str "Unknown"))
  exact ⟨hb.2.2.2.1, hb.2.2.2.2.1, hb.2.2.2.2.2⟩

/-- Claim C7: in distributed mode the local-node binding is pinned on
first write: an already-resolved binding survives any further frame, and
an unresolved binding is set by the first frame carrying a recognized
`device` value. -/
theorem local_binding_pin (st : InterfaceState) (port : String)
    (data : List (String × Json)) (now : ℚ)
    (hmode : st.operation_mode = "DISTRIBUIDO") :
    (∀ e : String, st.local_esp = some e →
      (on_data_received st port data now).local_esp = some e) ∧
    (st.local_esp = none →
      ∀ e : String, pyGet data "device" (.str "Unknown") = .str e →
      (e = "ESP1" ∨ e = "ESP2") →
      (on_data_received st port data now).local_esp = some e) := by
  rw [and_comm]
  constructor
  · intro hnone e hdev hrec
    rw [on_data_received_local_esp]
    unfold bind_local_esp
    rw [if_pos ⟨hmode, hnone⟩, hdev]
    rcases hrec with rfl | rfl
    · simp [jsonIsStr]
    · simp [jsonIsStr]
  · intro e hsome
    rw [on_data_received_local_esp]
    unfold bind_local_esp
    rw [if_neg (by simp [hsome])]
    exact hsome

/-- `ESP32Interface.__init__` state with distributed mode selected:
master ESP1, binding unresolved, empty plot deques, sensor index 0. -/
def stDistrib : InterfaceState :=
  ⟨"ESP1", "DISTRIBUIDO", none, [], [], [], 0⟩

/-- `ESP32Interface.__init__` state in the default LOCAL mode. -/
def stLocalInit : InterfaceState :=
  ⟨"ESP1", "LOCAL", none, [], [], [], 0⟩

/-- Distributed-mode state whose local-node binding is already pinned. -/
def stBound : InterfaceState :=
  ⟨"ESP1", "DISTRIBUIDO", some "ESP1", [], [], [], 0⟩

/-- Witness for C1: the relayed-slave frame of the specification,
`device ESP2, local pot 3, remote pot 1` with master ESP1, publishes
`(local 1, remote 3)`. -/
theorem slave_frame_swaps_display_witness :
    (on_data_received stDistrib "COM1"
      [("device", Json.str "ESP2"),
       ("local", Json.obj [("pot", Json.num 3)]),
       ("remote", Json.obj [("pot", Json.num 1)])] 0).plot_data_local =
      dequeApp 300 stDistrib.plot_data_local (Json.num 1) ∧
    (on_data_received stDistrib "COM1"
      [("device", Json.str "ESP2"),
       ("local", Json.obj [("pot", Json.num 3)]),
       ("remote", Json.obj [("pot", Json.num 1)])] 0).plot_data_remote =
      dequeApp 300 stDistrib.plot_data_remote (Json.num 3) ∧
    (on_data_received stDistrib "COM1"
      [("device", Json.str "ESP2"),
       ("local", Json.obj [("pot", Json.num 3)]),
       ("remote", Json.obj [("pot", Json.num 1)])] 0).plot_time =
      dequeApp 300 stDistrib.plot_time 0 :=
  slave_frame_swaps_display stDistrib "COM1" _ 0 "ESP2"
    [("pot", Json.num 3)] [("pot", Json.num 1)] "pot" (Json.num 3) (Json.num 1)
    rfl (Or.inl rfl) rfl (Or.inr rfl) (by decide) rfl rfl rfl rfl rfl

/-- Witness for C2: the direct-master frame of the specification,
`device ESP1, local pot 1, remote pot 2` with master ESP1, publishes
`(local 1, remote 2)`. -/
theorem master_frame_direct_display_witness :
    (on_data_received stLocalInit "COM1"
      [("device", Json.str "ESP1"),
       ("local", Json.obj [("pot", Json.num 1)]),
       ("remote", Json.obj [("pot", Json.num 2)])] 0).plot_data_local =
      dequeApp 300 stLocalInit.plot_data_local (Json.num 1) ∧
    (on_data_received stLocalInit "COM1"
      [("device", Json.str "ESP1"),
       ("local", Json.obj [("pot", Json.num 1)]),
       ("remote", Json.obj [("pot", Json.num 2)])] 0).plot_data_remote =
      dequeApp 300 stLocalInit.plot_data_remote (Json.num 2) ∧
    (on_data_received stLocalInit "COM1"
      [("device", Json.str "ESP1"),
       ("local", Json.obj [("pot", Json.num 1)]),
       ("remote", Json.obj [("pot", Json.num 2)])] 0).plot_time =
      dequeApp 300 stLocalInit.plot_time 0 :=
  master_frame_direct_display stLocalInit "COM1" _ 0
    [("pot", Json.num 1)] [("pot", Json.num 2)] "pot" (Json.num 1) (Json.num 2)
    (Or.inl rfl) rfl rfl rfl rfl rfl rfl

/-- Witness for C7: a pinned binding survives a frame from the other
node, and the first recognized frame pins an unresolved binding. -/
theorem local_binding_pin_witness :
    (on_data_received stBound "COM1" [("device", Json.str "ESP2")] 0).local_esp =
      some "ESP1" ∧
    (on_data_received stDistrib "COM1" [("device", Json.str "ESP1")] 0).local_esp =
      some "ESP1" :=
  ⟨(local_binding_pin stBound "COM1" _ 0 rfl).1 "ESP1" rfl,
   (local_binding_pin stDistrib "COM1" _ 0 rfl).2 rfl "ESP1" rfl (Or.inl rfl)⟩

/-- Witness for C8: a master frame with only a `local` object publishes
the local value together with a zero remote value. -/
theorem missing_remote_defaults_zero_witness :
    (on_data_received stLocalInit "COM1"
      [("device", Json.str "ESP1"),
       ("local", Json.obj [("pot", Json.num 2)])] 0).plot_data_local =
      dequeApp 300 stLocalInit.plot_data_local (Json.num 2) ∧
    (on_data_received stLocalInit "COM1"
      [("device", Json.str "ESP1"),
       ("local", Json.obj [("pot", Json.num 2)])] 0).plot_data_remote =
      dequeApp 300 stLocalInit.plot_data_remote (Json.num 0) ∧
    (on_data_received stLocalInit "COM1"
      [("device", Json.str "ESP1"),
       ("local", Json.obj [("pot", Json.num 2)])] 0).plot_time =
      dequeApp 300 stLocalInit.plot_time 0 :=
  missing_remote_defaults_zero stLocalInit "COM1" _ 0
    [("pot", Json.num 2)] "pot" (Json.num 2)
    (Or.inl rfl) rfl rfl rfl rfl rfl

/-- Witness for C10: a slave frame without a `remote` object leaves all
three plot series untouched. -/
theorem slave_frame_missing_field_dropped_witness :
    (on_data_received stDistrib "COM1"
      [("device", Json.str "ESP2"),
       ("local", Json.obj [("pot", Json.num 3)])] 0).plot_data_local =
      stDistrib.plot_data_local ∧
    (on_data_received stDistrib "COM1"
      [("device", Json.str "ESP2"),
       ("local", Json.obj [("pot", Json.num 3)])] 0).plot_data_remote =
      stDistrib.plot_data_remote ∧
    (on_data_received stDistrib "COM1"
      [("device", Json.str "ESP2"),
       ("local", Json.obj [("pot", Json.num 3)])] 0).plot_time =
      stDistrib.plot_time :=
  slave_frame_missing_field_dropped stDistrib "COM1" _ 0 "ESP2"
    rfl rfl (Or.inr rfl) (by decide) (Or.inr rfl)

/-- Claim C5 (amended): a frame whose `device` value is neither
recognized node identity is excluded from both per-node histories and
from master display processing; only the throttled shared timestamp list
may advance, and no error is raised (the transition is total). -/
theorem unrecognized_device_excluded (st : MonitorState)
    (data : List (String × Json)) (now : ℚ)
    (h1 : jsonIsStr (pyGet data "device" (.str "Unknown")) "ESP1" = false)
    (h2 : jsonIsStr (pyGet data "device" (.str "Unknown")) "ESP2" = false)
    (hm : st.master_esp = "ESP1" ∨ st.master_esp = "ESP2") :
    (monitor_on_data_received st data now).esp1_data = st.esp1_data ∧
    (monitor_on_data_received st data now).esp2_data = st.esp2_data ∧
    (monitor_on_data_received st data now).master_local_data = st.master_local_data ∧
    (monitor_on_data_received st data now).master_remote_data = st.master_remote_data ∧
    (monitor_on_data_received st data now).plot_time_data = st.plot_time_data := by
  have hmaster_ne :
      jsonIsStr (pyGet data "device" (.str "Unknown")) st.master_esp = false := by
    rcases hm with h | h <;> rw [h] <;> assumption
  unfold monitor_on_data_received
  dsimp only
  simp only [h1, h2, Bool.false_eq_true, if_false, hmaster_ne]
  split <;> simp

/-- `ESP32Monitor.__init__` state: master ESP1, sensor index 0, all
histories and plot buffers empty. -/
def monInit : MonitorState :=
  ⟨"ESP1", 0, [], [], [], [], [], []⟩

/-- Counterexample to C5 as stated: a frame with the unrecognized device
`ESP3` is retained in neither per-node raw history, so the claim that
such frames are kept in history is false on the code. -/
theorem unrecognized_device_not_retained :
    (monitor_on_data_received monInit [("device", Json.str "ESP3")] 5).esp1_data = [] ∧
    (monitor_on_data_received monInit [("device", Json.str "ESP3")] 5).esp2_data = [] :=
  ⟨rfl, rfl⟩

/-- Witness for C5 (amended) at the concrete `ESP3` frame. -/
theorem unrecognized_device_excluded_witness :
    (monitor_on_data_received monInit [("device", Json.str "ESP3")] 5).esp1_data =
      monInit.esp1_data ∧
    (monitor_on_data_received monInit [("device", Json.str "ESP3")] 5).esp2_data =
      monInit.esp2_data ∧
    (monitor_on_data_received monInit [("device", Json.str "ESP3")] 5).master_local_data =
      monInit.master_local_data ∧
    (monitor_on_data_received monInit [("device", Json.str "ESP3")] 5).master_remote_data =
      monInit.master_remote_data ∧
    (monitor_on_data_received monInit [("device", Json.str "ESP3")] 5).plot_time_data =
      monInit.plot_time_data :=
  unrecognized_device_excluded monInit _ 5 rfl rfl (Or.inl rfl)

/-- Claim C9 (amended): the monitor variant always encodes an LED
command as the bare `<ledName>:<bool>` newline-terminated line, while
the distributed variant always prefixes the lower-cased node identifier
(`esp1`/`esp2`), whichever operating mode is active (the command string
is built before the mode branch and written unchanged on every path). -/
theorem led_command_forms (target led_name : String) (state : Bool)
    (h : target = "ESP1" ∨ target = "ESP2") :
    interface_led_command target led_name state =
      (if target = "ESP1" then "esp1" else "esp2") ++ "_" ++ led_name ++ ":" ++
        pyBoolStr state ++ "\n" ∧
    monitor_led_command led_name state =
      led_name ++ ":" ++ pyBoolStr state ++ "\n" := by
  constructor
  · rcases h with rfl | rfl
    · show pyLower "ESP1" ++ "_" ++ led_name ++ ":" ++ pyBoolStr state ++ "\n" = _
      rw [(by decide : pyLower "ESP1" = "esp1"), if_pos rfl]
    · show pyLower "ESP2" ++ "_" ++ led_name ++ ":" ++ pyBoolStr state ++ "\n" = _
      rw [(by decide : pyLower "ESP2" = "esp2"), if_neg (by decide)]
  · rfl

/-- Counterexample to C9 as stated: in the distributed program the LED
command for `led_verde` carries the node prefix even in LOCAL mode
(`ESP32Interface.send_led_command` builds it before testing the mode),
so it differs from the bare `<ledName>:<bool>` form the claim assigns to
local mode. -/
theorem local_mode_led_command_mismatch :
    interface_led_command "ESP1" "led_verde" true = "esp1_led_verde:true\n" ∧
    monitor_led_command "led_verde" true = "led_verde:true\n" ∧
    interface_led_command "ESP1" "led_verde" true ≠
      monitor_led_command "led_verde" true :=
  ⟨by decide, rfl, by decide⟩

/-- Witness for C9 (amended) at node ESP1. -/
theorem led_command_forms_witness :
    interface_led_command "ESP1" "led_verde" true =
      (if ("ESP1" : String) = "ESP1" then "esp1" else "esp2") ++ "_" ++ "led_verde" ++
        ":" ++ pyBoolStr true ++ "\n" ∧
    monitor_led_command "led_verde" true = "led_verde" ++ ":" ++ pyBoolStr true ++ "\n" :=
  led_command_forms "ESP1" "led_verde" true (Or.inl rfl)

/-- Claim C4 (amended): a candidate line is parsed only when it starts
with an opening brace and ends with a closing brace, and a JSON parse
failure drops the line silently; but a successfully parsed object is
emitted as a frame even when it has no `device` field (the `device`
test in `process_line` only refreshes a debug label), so device-less
frames are filtered only later, at routing. -/
theorem process_line_amended :
    (∀ line : List Char, ¬(line.head? = some '{' ∧ line.getLast? = some '}') →
      process_line line = none) ∧
    (∀ line : List Char, jsonLoads line = none → process_line line = none) ∧
    (∀ (line : List Char) (d : Json), jsonLoads line = some d →
      line.head? = some '{' → line.getLast? = some '}' →
      process_line line = some d) := by
  refine ⟨?_, ?_, ?_⟩
  · intro line h
    simp only [process_line, if_neg h]
  · intro line h
    by_cases hb : line.head? = some '{' ∧ line.getLast? = some '}'
    · simp [process_line, hb, h]
    · simp [process_line, hb]
  · intro line d h h1 h2
    simp [process_line, h1, h2, h]

/-- Counterexample to C4 as stated: the line with body `"a":"b"` parses
to an object without a `device` field, yet `process_line` still emits it
as a frame (the emit call sits outside the `device` test). -/
theorem deviceless_frame_still_emitted :
    process_line ['{', '"', 'a', '"', ':', '"', 'b', '"', '}'] =
      some (Json.obj [("a", Json.str "b")]) ∧
    jdictGet [("a", Json.str "b")] "device" = none :=
  ⟨rfl, rfl⟩

/-- Witness for C4 (amended) at the empty-object line. -/
theorem process_line_amended_witness :
    process_line ['{', '}'] = some (Json.obj []) :=
  process_line_amended.2.2 ['{', '}'] (Json.obj []) rfl rfl rfl

/-! ### Supporting lemmas: line reassembly -/

/-- Rewriting a pair by its known first component. -/
theorem pair_eta_fst {α β : Type} (p : α × β) {x : α} (h : p.1 = x) : p = (x, p.2) := by
  cases p
  cases h
  rfl

/-- Unfolding `splitNL` on a cons cell. -/
theorem splitNL_cons (c : Char) (t : List Char) :
    splitNL (c :: t) = splitNLcons c (splitNL t) :=
  rfl

/-- `splitNLcons` on a newline opens a fresh complete line. -/
theorem splitNLcons_nl (p : List (List Char) × List Char) :
    splitNLcons '\n' p = ([] :: p.1, p.2) := by
  simp [splitNLcons]

/-- `splitNLcons` on an ordinary character with no complete line yet
grows the residual buffer. -/
theorem splitNLcons_not_nl_nil (c : Char) (hc : c ≠ '\n') (b : List Char) :
    splitNLcons c ([], b) = ([], c :: b) := by
  simp [splitNLcons, hc]

/-- `splitNLcons` on an ordinary character prepends it to the first
complete line. -/
theorem splitNLcons_not_nl_cons (c : Char) (hc : c ≠ '\n') (l : List Char)
    (ls : List (List Char)) (b : List Char) :
    splitNLcons c (l :: ls, b) = ((c :: l) :: ls, b) := by
  simp [splitNLcons, hc]

/-- A newline-free text splits into no complete line and itself as the
residual buffer. -/
theorem splitNL_noNL (l : List Char) (h : '\n' ∉ l) : splitNL l = ([], l) := by
  induction l with
  | nil => rfl
  | cons c t ih =>
    have hc : c ≠ '\n' := fun hc => h (hc ▸ List.mem_cons_self c t)
    have ht : '\n' ∉ t := fun hm => h (List.mem_cons_of_mem c hm)
    rw [splitNL_cons, ih ht, splitNLcons_not_nl_nil c hc]

/-- The residual buffer after extraction never contains a newline. -/
theorem splitNL_buf_noNL (l : List Char) : '\n' ∉ (splitNL l).2 := by
  induction l with
  | nil => simp [splitNL]
  | cons c t ih =>
    rw [splitNL_cons]
    by_cases hc : c = '\n'
    · subst hc
      rw [splitNLcons_nl]
      exact ih
    · match h : (splitNL t).1 with
      | [] =>
        rw [pair_eta_fst _ h, splitNLcons_not_nl_nil c hc]
        intro hm
        rcases List.mem_cons.mp hm with h1 | h1
        · exact hc h1.symm
        · exact ih h1
      | l' :: ls =>
        rw [pair_eta_fst _ h, splitNLcons_not_nl_cons c hc]
        exact ih

/-- Joining the extracted lines back with newlines, followed by the
residual buffer, restores the original text: sanity check that
`splitNL` models the `buffer.split` loop exactly. -/
theorem splitNL_join (l : List Char) :
    (splitNL l).1.foldr (fun line acc => line ++ '\n' :: acc) (splitNL l).2 = l := by
  induction l with
  | nil => rfl
  | cons c t ih =>
    rw [splitNL_cons]
    by_cases hc : c = '\n'
    · subst hc
      rw [splitNLcons_nl]
      simp only [List.foldr_cons, List.nil_append]
      rw [ih]
    · match h : (splitNL t).1 with
      | [] =>
        have hB : (splitNL t).2 = t := by simpa [h] using ih
        rw [pair_eta_fst _ h, splitNLcons_not_nl_nil c hc]
        simp [hB]
      | l' :: ls =>
        have hT : (l' :: ls).foldr (fun line acc => line ++ '\n' :: acc)
            (splitNL t).2 = t := by
          rw [← h]; exact ih
        rw [pair_eta_fst _ h, splitNLcons_not_nl_cons c hc]
        simpa using congrArg (fun x => c :: x) hT

/-- Splitting distributes over concatenation: the lines of `u ++ v` are
the lines of `u` followed by the lines extracted after carrying the
residual buffer of `u` into `v`. -/
theorem splitNL_append (u v : List Char) :
    splitNL (u ++ v) =
      ((splitNL u).1 ++ (splitNL ((splitNL u).2 ++ v)).1,
        (splitNL ((splitNL u).2 ++ v)).2) := by
  induction u with
  | nil => simp [splitNL]
  | cons c u ih =>
    rw [List.cons_append, splitNL_cons, ih, splitNL_cons]
    by_cases hc : c = '\n'
    · subst hc
      rw [splitNLcons_nl, splitNLcons_nl]
      simp
    · match h : (splitNL u).1 with
      | [] =>
        rw [pair_eta_fst _ h, splitNLcons_not_nl_nil c hc]
        simp only [List.nil_append, List.cons_append]
        rw [splitNL_cons]
      | l' :: ls =>
        rw [pair_eta_fst _ h, splitNLcons_not_nl_cons c hc]
        simp only [List.cons_append]
        rw [splitNLcons_not_nl_cons c hc]

/-- Feeding chunks one by one through the reader loop extracts exactly
the lines of the concatenated text, with the same final buffer, whenever
the starting buffer holds no newline. -/
theorem feedChunks_join (chunks : List (List Char)) :
    ∀ buf : List Char, '\n' ∉ buf →
      feedChunks buf chunks = splitNL (buf ++ chunks.flatten) := by
  induction chunks with
  | nil =>
    intro buf h
    rw [List.flatten_nil, List.append_nil]
    show ([], buf) = splitNL buf
    rw [splitNL_noNL buf h]
  | cons c rest ih =>
    intro buf h
    show (let p := splitNL (buf ++ c)
          let q := feedChunks p.2 rest
          (p.1 ++ q.1, q.2)) = _
    dsimp only
    rw [ih (splitNL (buf ++ c)).2 (splitNL_buf_noNL _)]
    rw [List.flatten_cons, ← List.append_assoc, splitNL_append (buf ++ c) rest.flatten]

/-- The reader loop emits exactly the frames a single atomic read of the
whole text would emit. -/
theorem framesOfChunks_atomic (cs : List (List Char)) :
    framesOfChunks cs = framesOfChunks [cs.flatten] := by
  unfold framesOfChunks
  rw [feedChunks_join cs [] (by simp), feedChunks_join [cs.flatten] [] (by simp)]
  simp

/-- Lenient UTF-8 decoding of the empty byte list. -/
theorem utf8Ignore_nil : utf8Ignore [] = [] :=
  rfl

/-- Lenient UTF-8 decoding step for an ASCII byte. -/
theorem utf8Ignore_one (b : ℕ) (rest : List ℕ) (hb : b < 0x80) :
    utf8Ignore (b :: rest) = Char.ofNat b :: utf8Ignore rest := by
  simp [utf8Ignore, utf8Go, leadStep, hb]

/-- Lenient UTF-8 decoding step for a complete 2-byte sequence. -/
theorem utf8Ignore_two (b1 b2 : ℕ) (rest : List ℕ) (h1 : 0xC2 ≤ b1) (h2 : b1 ≤ 0xDF)
    (hc : isCont b2 = true) :
    utf8Ignore (b1 :: b2 :: rest) =
      Char.ofNat ((b1 - 0xC0) * 0x40 + (b2 - 0x80)) :: utf8Ignore rest := by
  have hn : ¬b1 < 0x80 := by omega
  simp [utf8Ignore, utf8Go, leadStep, hn, h1, h2, hc]

/-- Lenient UTF-8 decoding step for a complete 3-byte sequence. -/
theorem utf8Ignore_three (b1 b2 b3 : ℕ) (rest : List ℕ) (h1 : 0xE0 ≤ b1)
    (h2 : b1 ≤ 0xEF) (hc2 : isCont b2 = true) (hc3 : isCont b3 = true) :
    utf8Ignore (b1 :: b2 :: b3 :: rest) =
      Char.ofNat (((b1 - 0xE0) * 0x40 + (b2 - 0x80)) * 0x40 + (b3 - 0x80)) ::
        utf8Ignore rest := by
  have hn : ¬b1 < 0x80 := by omega
  have hn2 : ¬(0xC2 ≤ b1 ∧ b1 ≤ 0xDF) := by omega
  simp [utf8Ignore, utf8Go, leadStep, hn, hn2, h1, h2, hc2, hc3]

/-- Lenient UTF-8 decoding step for a complete 4-byte sequence. -/
theorem utf8Ignore_four (b1 b2 b3 b4 : ℕ) (rest : List ℕ) (h1 : 0xF0 ≤ b1)
    (h2 : b1 ≤ 0xF4) (hc2 : isCont b2 = true) (hc3 : isCont b3 = true)
    (hc4 : isCont b4 = true) :
    utf8Ignore (b1 :: b2 :: b3 :: b4 :: rest) =
      Char.ofNat ((((b1 - 0xF0) * 0x40 + (b2 - 0x80)) * 0x40 + (b3 - 0x80)) * 0x40 +
        (b4 - 0x80)) :: utf8Ignore rest := by
  have hn : ¬b1 < 0x80 := by omega
  have hn2 : ¬(0xC2 ≤ b1 ∧ b1 ≤ 0xDF) := by omega
  have hn3 : ¬(0xE0 ≤ b1 ∧ b1 ≤ 0xEF) := by omega
  simp [utf8Ignore, utf8Go, leadStep, hn, hn2, hn3, h1, h2, hc2, hc3, hc4]

/-- Chunk-wise lenient UTF-8 decoding agrees with whole-text decoding
across a boundary that falls after complete character encodings. -/
theorem utf8Ignore_append (u v : List ℕ) (h : Utf8Seq u) :
    utf8Ignore (u ++ v) = utf8Ignore u ++ utf8Ignore v := by
  induction h with
  | nil => rw [List.nil_append, utf8Ignore_nil, List.nil_append]
  | one hb _ ih =>
    rw [List.cons_append, utf8Ignore_one _ _ hb, utf8Ignore_one _ _ hb, ih,
      List.cons_append]
  | two h1 h2 hcont _ ih =>
    rw [List.cons_append, List.cons_append, utf8Ignore_two _ _ _ h1 h2 hcont,
      utf8Ignore_two _ _ _ h1 h2 hcont, ih, List.cons_append]
  | three h1 h2 hc2 hc3 _ ih =>
    rw [List.cons_append, List.cons_append, List.cons_append,
      utf8Ignore_three _ _ _ _ h1 h2 hc2 hc3, utf8Ignore_three _ _ _ _ h1 h2 hc2 hc3,
      ih, List.cons_append]
  | four h1 h2 hc2 hc3 hc4 _ ih =>
    rw [List.cons_append, List.cons_append, List.cons_append, List.cons_append,
      utf8Ignore_four _ _ _ _ _ h1 h2 hc2 hc3 hc4,
      utf8Ignore_four _ _ _ _ _ h1 h2 hc2 hc3 hc4, ih, List.cons_append]

/-- Chunk-wise lenient UTF-8 decoding of character-aligned chunks agrees
with decoding the reassembled byte sequence. -/
theorem utf8Ignore_flatten (chunks : List (List ℕ)) (h : ∀ c ∈ chunks, Utf8Seq c) :
    utf8Ignore chunks.flatten = (chunks.map utf8Ignore).flatten := by
  induction chunks with
  | nil => rw [List.flatten_nil, List.map_nil, List.flatten_nil, utf8Ignore_nil]
  | cons c rest ih =>
    rw [List.flatten_cons, List.map_cons, List.flatten_cons,
      utf8Ignore_append c rest.flatten (h c (List.mem_cons_self c rest)),
      ih (fun x hx => h x (List.mem_cons_of_mem c hx))]

/-- ASCII byte lists are sequences of complete character encodings. -/
theorem utf8Seq_of_ascii (l : List ℕ) (h : ∀ b ∈ l, b < 0x80) : Utf8Seq l := by
  induction l with
  | nil => exact .nil
  | cons b t ih =>
    exact .one (h b (List.mem_cons_self b t))
      (ih (fun x hx => h x (List.mem_cons_of_mem b hx)))

/-- Claim C3 (amended): for a byte sequence split into chunks whose
boundaries fall on UTF-8 character boundaries (in particular for any
ASCII telemetry), the reader emits exactly the same parsed frames, in
the same order, as a single atomic read of the whole sequence would.
The restriction is forced by the per-chunk `decode(utf-8, errors
ignored)`: a multi-byte character cut by a read boundary is dropped
from both chunks instead of being reassembled. -/
theorem reassembly_invariant_utf8_chunks (chunks : List (List ℕ))
    (h : ∀ c ∈ chunks, Utf8Seq c) :
    framesOfByteChunks chunks = framesOfByteChunks [chunks.flatten] := by
  unfold framesOfByteChunks
  rw [framesOfChunks_atomic (chunks.map utf8Ignore)]
  rw [List.map_cons, List.map_nil]
  rw [utf8Ignore_flatten chunks h]

/-- First read result of the counterexample: the frame
`device = U+00D1` cut right after the lead byte `0xC3`. -/
def bytesA : List ℕ :=
  [0x7B, 0x22, 0x64, 0x65, 0x76, 0x69, 0x63, 0x65, 0x22, 0x3A, 0x22, 0xC3]

/-- Second read result of the counterexample: continuation byte `0x91`,
closing quote, closing brace, newline. -/
def bytesB : List ℕ :=
  [0x91, 0x22, 0x7D, 0x0A]

/-- Counterexample to C3 as stated: the single complete line
`device:"U+00D1"` split between the two bytes of its UTF-8 character is
decoded chunk-wise with both bytes dropped, so the two-read run emits a
frame with an empty device string while the atomic read emits the
correct one — the emitted frames differ for this partition. -/
theorem split_multibyte_breaks_reassembly :
    framesOfByteChunks [bytesA ++ bytesB] = [Json.obj [("device", Json.str "Ñ")]] ∧
    framesOfByteChunks [bytesA, bytesB] = [Json.obj [("device", Json.str "")]] ∧
    ([bytesA, bytesB] : List (List ℕ)).flatten = bytesA ++ bytesB ∧
    framesOfByteChunks [bytesA, bytesB] ≠ framesOfByteChunks [bytesA ++ bytesB] := by
  have e1 : framesOfByteChunks [bytesA ++ bytesB] =
      [Json.obj [("device", Json.str "Ñ")]] := rfl
  have e2 : framesOfByteChunks [bytesA, bytesB] =
      [Json.obj [("device", Json.str "")]] := rfl
  refine ⟨e1, e2, by simp, ?_⟩
  rw [e1, e2]
  intro hcontra
  have hs : ("" : String) = "Ñ" :=
    congrArg (fun frames => match frames with
      | [Json.obj [(_, Json.str s)]] => s
      | _ => "") hcontra
  exact absurd hs (by decide)

/-- Witness for C3 (amended) at a concrete two-chunk ASCII split of the
line with body `device:"ESP1"`. -/
theorem reassembly_invariant_witness :
    framesOfByteChunks
      [[0x7B, 0x22, 0x64, 0x65, 0x76, 0x69, 0x63, 0x65, 0x22],
       [0x3A, 0x22, 0x45, 0x53, 0x50, 0x31, 0x22, 0x7D, 0x0A]] =
    framesOfByteChunks
      [([[0x7B, 0x22, 0x64, 0x65, 0x76, 0x69, 0x63, 0x65, 0x22],
         [0x3A, 0x22, 0x45, 0x53, 0x50, 0x31, 0x22, 0x7D, 0x0A]] :
        List (List ℕ)).flatten] :=
  reassembly_invariant_utf8_chunks _ (by
    intro c hc
    apply utf8Seq_of_ascii
    rcases List.mem_cons.mp hc with rfl | hc2
    · decide
    · rcases List.mem_cons.mp hc2 with rfl | hc3
      · decide
      · simp at hc3)
